import Mathlib

set_option maxRecDepth 200000

/-!
Shallow embedding of the ContentSocialSwarm platform agents, orchestrator and
vector store.  Text is modelled as `List Char` (one entry per Python character),
hashtags as `List String`.  Python's slice `text[:stop]`, which clamps and
accepts negative stops, is modelled by `pyTake`.  External side effects
(Twitter/Facebook SDK calls, ChromaDB and the embedding model) are modelled by
outcome parameters; `datetime.now()` is modelled by an explicit clock value
passed to each workflow node.
-/

/-- Python's `xs[:stop]` on a string (here a `List Char`): a negative stop
counts from the end, and out-of-range stops clamp. -/
def pyTake (xs : List Char) (stop : Int) : List Char :=
  xs.take (if stop < 0 then ((xs.length : Int) + stop).toNat else stop.toNat)

/-- The three-character ellipsis marker `"..."` appended on truncation. -/
def ellipsis : List Char := ['.', '.', '.']

/-- A content item as the platform agents see it: the `"text"` and
`"hashtags"` entries of the content dict. -/
structure Content where
  text : List Char
  hashtags : List String
deriving DecidableEq

/-- `" ".join(...)` on rendered hashtag fragments. -/
def hashtagJoin : List (List Char) → List Char
  | [] => []
  | [t] => t
  | t :: ts => t ++ ' ' :: hashtagJoin ts

/-- `" ".join(f"#{tag}" for tag in tags)`. -/
def renderTags (tags : List String) : List Char :=
  hashtagJoin (tags.map (fun t => '#' :: t.toList))

namespace TwitterAgent

/-- `hashtag_text = " ".join(f"#{tag}" for tag in hashtags[:5])`. -/
def hashtag_text (c : Content) : List Char :=
  renderTags (c.hashtags.take 5)

/-- `available_chars = 280 - len(hashtag_text) - 2` (a Python int, possibly
negative). -/
def available_chars (c : Content) : Int :=
  280 - ((hashtag_text c).length : Int) - 2

/-- `TwitterAgent.optimize_content`: truncate the text to the hashtag-adjusted
budget and keep only the first five hashtags. -/
def optimize_content (c : Content) : Content :=
  { text :=
      if (c.text.length : Int) > available_chars c then
        pyTake c.text (available_chars c - 3) ++ ellipsis
      else c.text,
    hashtags := c.hashtags.take 5 }

end TwitterAgent

namespace InstagramAgent

/-- The fixed generic pool appended when a post has too few hashtags. -/
def generic_hashtags : List String :=
  ["#marketing", "#business", "#socialmedia", "#content"]

/-- `InstagramAgent.optimize_content`: cap the caption at 300 characters,
cap hashtags at 30, and pad with `generic_hashtags[:10-len(hashtags)]` when
fewer than 10 are present. -/
def optimize_content (c : Content) : Content :=
  { text :=
      if c.text.length > 300 then c.text.take 297 ++ ellipsis else c.text,
    hashtags :=
      if c.hashtags.length > 30 then c.hashtags.take 30
      else if c.hashtags.length < 10 then
        c.hashtags ++ generic_hashtags.take (10 - c.hashtags.length)
      else c.hashtags }

end InstagramAgent

namespace FacebookAgent

/-- `FacebookAgent.optimize_content`: cap the text at 500 characters and keep
at most five hashtags. -/
def optimize_content (c : Content) : Content :=
  { text :=
      if c.text.length > 500 then c.text.take 497 ++ ellipsis else c.text,
    hashtags :=
      if c.hashtags.length > 5 then c.hashtags.take 5 else c.hashtags }

end FacebookAgent

namespace TikTokAgent

/-- The fixed TikTok-friendly pool appended when a post has too few hashtags. -/
def tiktok_hashtags : List String :=
  ["#fyp", "#viral", "#trending", "#marketing", "#business"]

/-- `TikTokAgent.optimize_content`: cap the description at 2200 characters,
cap hashtags at 10, and pad with `tiktok_hashtags[:3-len(hashtags)]` when
fewer than 3 are present. -/
def optimize_content (c : Content) : Content :=
  { text :=
      if c.text.length > 2200 then c.text.take 2197 ++ ellipsis else c.text,
    hashtags :=
      if c.hashtags.length > 10 then c.hashtags.take 10
      else if c.hashtags.length < 3 then
        c.hashtags ++ tiktok_hashtags.take (3 - c.hashtags.length)
      else c.hashtags }

end TikTokAgent

namespace VectorStoreManager

/-- The fields of `VectorStoreManager` that its guards inspect: `initialize`
sets `self.collection` and `self.encoder`; before that both are `None`. -/
structure StoreState where
  collectionSet : Bool
  encoderSet : Bool
deriving DecidableEq

/-- The message of the exception raised by every pre-initialization guard. -/
def notInitializedMsg : String := "Vector store not initialized"

/-- `VectorStoreManager.store_content`.  `ext` models the embedding plus
ChromaDB `add` work (raising, or returning the content id).  The `except`
clause logs and re-raises, so both the guard's exception and any external
exception propagate to the caller. -/
def store_content (st : StoreState) (ext : Except String String) :
    Except String String :=
  if !st.collectionSet || !st.encoderSet then .error notInitializedMsg
  else ext

/-- `VectorStoreManager.search_similar_content`.  `ext` models the embedding
plus ChromaDB `query` work.  The `except` clause returns `[]`, so no
exception — including the not-initialized guard's — ever reaches the
caller. -/
def search_similar_content (st : StoreState)
    (ext : Except String (List String)) : Except String (List String) :=
  if !st.collectionSet || !st.encoderSet then .ok []
  else
    match ext with
    | .error _ => .ok []
    | .ok rs => .ok rs

/-- `VectorStoreManager.get_content_by_id`.  Only `self.collection` is
guarded; the `except` clause returns `None`, swallowing every exception. -/
def get_content_by_id (st : StoreState)
    (ext : Except String (Option String)) : Except String (Option String) :=
  if !st.collectionSet then .ok none
  else
    match ext with
    | .error _ => .ok none
    | .ok r => .ok r

/-- `VectorStoreManager.delete_content`.  Only `self.collection` is guarded;
the `except` clause returns `False`, swallowing every exception. -/
def delete_content (st : StoreState) (ext : Except String Unit) :
    Except String Bool :=
  if !st.collectionSet then .ok false
  else
    match ext with
    | .error _ => .ok false
    | .ok _ => .ok true

end VectorStoreManager

namespace ExecutiveAgent

/-- The slice of `ExecutiveState` the workflow nodes touch, plus the fields
`execute_campaign` seeds.  `datetime.now()` is modelled by `Nat` clock values
supplied at each stamping point. -/
structure ExecState where
  clientId : String
  campaignId : Option String
  objective : String
  contentBrief : String
  targetPlatforms : List String
  errorMessages : List String
  status : String
  createdAt : Nat
  updatedAt : Nat
deriving DecidableEq

/-- The `initial_state` dict built at the top of `execute_campaign`. -/
def initialState (clientId objective contentBrief : String)
    (platforms : List String) (campaignId : Option String) (now : Nat) :
    ExecState :=
  { clientId := clientId, campaignId := campaignId, objective := objective,
    contentBrief := contentBrief, targetPlatforms := platforms,
    errorMessages := [], status := "started",
    createdAt := now, updatedAt := now }

/-- Workflow node `_analyze_brief`: stamps `brief_analyzed` and `updated_at`. -/
def analyze_brief (now : Nat) (s : ExecState) : ExecState :=
  { s with status := "brief_analyzed", updatedAt := now }

/-- Workflow node `_generate_content`: stamps `content_generated` and
`updated_at`. -/
def generate_content (now : Nat) (s : ExecState) : ExecState :=
  { s with status := "content_generated", updatedAt := now }

/-- Workflow node `_finalize`: stamps `completed` and `updated_at`. -/
def finalize (now : Nat) (s : ExecState) : ExecState :=
  { s with status := "completed", updatedAt := now }

/-- `ExecutiveAgent.execute_campaign`: builds the initial state and runs the
compiled LangGraph workflow, whose edges are
`analyze_brief → generate_content → finalize → END`.  No validation of
`target_platforms` takes place, and none of the three nodes makes an external
call. -/
def execute_campaign (clientId objective contentBrief : String)
    (platforms : List String) (campaignId : Option String)
    (t0 t1 t2 t3 : Nat) : ExecState :=
  finalize t3 (generate_content t2 (analyze_brief t1
    (initialState clientId objective contentBrief platforms campaignId t0)))

end ExecutiveAgent

/-- Outcome of the one external SDK/HTTP call inside a `publish_content` body:
the call either raises (caught by the surrounding `except`) or returns a
response whose post identifier may be absent (`response.data` falsy for
Twitter, `result.get("id")` for Facebook). -/
inductive CallOutcome where
  | raises (msg : String)
  | returns (postId : Option String)
deriving DecidableEq

/-- The dict returned by every `publish_content`: either the
`{"status": "success", ...}` shape (with an optional post id and the composed
text payload when the agent echoes one) or the `{"status": "failed", ...}`
shape.  Both carry the platform name and the client id. -/
inductive PublishResult where
  | success (platform : String) (postId : Option String) (clientId : String)
      (payload : Option (List Char))
  | failed (platform : String) (error : String) (clientId : String)
deriving DecidableEq

/-- The `"platform"` entry, present in both result shapes. -/
def PublishResult.platform : PublishResult → String
  | .success p _ _ _ => p
  | .failed p _ _ => p

/-- The `"client_id"` entry, present in both result shapes. -/
def PublishResult.clientId : PublishResult → String
  | .success _ _ cid _ => cid
  | .failed _ _ cid => cid

/-- Whether the result carries `"status": "success"`. -/
def PublishResult.isSuccess : PublishResult → Bool
  | .success _ _ _ _ => true
  | .failed _ _ _ => false

/-- The post identifier of a success result (`none` on failure). -/
def PublishResult.postId : PublishResult → Option String
  | .success _ pid _ _ => pid
  | .failed _ _ _ => none

namespace TwitterAgent

/-- The tweet text composed by `publish_content`: text plus a blank line and
all hashtags when any are present, then truncated to 280 characters. -/
def tweet_text (c : Content) : List Char :=
  let base :=
    if c.hashtags.isEmpty then c.text
    else c.text ++ '\n' :: '\n' :: renderTags c.hashtags
  if base.length > 280 then base.take 277 ++ ellipsis else base

/-- `TwitterAgent.publish_content`.  `connected` models `self.client` being
set; `outcome` models `create_tweet` (raising, or returning a response whose
`data` may be falsy).  Every raise inside the `try` block is caught and turned
into the failed dict. -/
def publish_content (connected : Bool) (outcome : CallOutcome)
    (c : Content) (clientId : String) : PublishResult :=
  if ¬connected then
    .failed "twitter" "Twitter client not initialized" clientId
  else
    match outcome with
    | .raises msg => .failed "twitter" msg clientId
    | .returns none =>
        .failed "twitter" "Tweet creation failed - no response data" clientId
    | .returns (some pid) =>
        .success "twitter" (some pid) clientId (some (tweet_text c))

end TwitterAgent

namespace FacebookAgent

/-- `FacebookAgent.publish_content`.  `connected` models `self.graph` being
set; `outcome` models `put_object` (raising, or returning a dict whose
`"id"` entry may be absent).  Unlike Twitter, the response is not checked:
`result.get("id")` is echoed into a success dict even when it is absent. -/
def publish_content (connected : Bool) (outcome : CallOutcome)
    (clientId : String) : PublishResult :=
  if ¬connected then
    .failed "facebook" "Facebook Graph API not initialized" clientId
  else
    match outcome with
    | .raises msg => .failed "facebook" msg clientId
    | .returns optId => .success "facebook" optId clientId none

end FacebookAgent

namespace InstagramAgent

/-- The caption composed by `publish_content`: text plus a blank line and all
hashtags when any are present. -/
def caption (c : Content) : List Char :=
  if c.hashtags.isEmpty then c.text
  else c.text ++ '\n' :: '\n' :: renderTags c.hashtags

/-- `InstagramAgent.publish_content`.  `tokenConfigured` models
`self.settings.FACEBOOK_ACCESS_TOKEN` being set; `h` models Python's string
`hash`.  No external call is made: the post id is synthesized locally as
`f"ig_{client_id}_{hash(caption) % 10000}"`. -/
def publish_content (tokenConfigured : Bool) (h : List Char → Int)
    (c : Content) (clientId : String) : PublishResult :=
  if ¬tokenConfigured then
    .failed "instagram" "Instagram access token not configured" clientId
  else
    .success "instagram"
      (some ("ig_" ++ clientId ++ "_" ++ toString (h (caption c) % 10000)))
      clientId (some (caption c))

end InstagramAgent

namespace TikTokAgent

/-- The description composed by `publish_content`: text plus a blank line and
all hashtags when any are present. -/
def description (c : Content) : List Char :=
  if c.hashtags.isEmpty then c.text
  else c.text ++ '\n' :: '\n' :: renderTags c.hashtags

/-- `TikTokAgent.publish_content`: a pure simulation, no guard and no external
call; the post id is synthesized locally as
`f"tiktok_{client_id}_{hash(description) % 10000}"` where `h` models Python's
string `hash`. -/
def publish_content (h : List Char → Int)
    (c : Content) (clientId : String) : PublishResult :=
  .success "tiktok"
    (some ("tiktok_" ++ clientId ++ "_" ++ toString (h (description c) % 10000)))
    clientId (some (description c))

end TikTokAgent

/-- Two content items with the same text and hashtags are equal. -/
theorem content_ext (a b : Content) (h1 : a.text = b.text)
    (h2 : a.hashtags = b.hashtags) : a = b := by
  cases a; cases b; cases h1; cases h2; rfl

/-- `pyTake` with a nonnegative stop is a plain `take`. -/
theorem pyTake_of_nonneg (t : List Char) (s : Int) (h : 0 ≤ s) :
    pyTake t s = t.take s.toNat := by
  rw [pyTake, if_neg (by omega)]

/-- Length and tail of a truncated-with-ellipsis text. -/
theorem clip_spec (t : List Char) (k : Nat) (hk : k ≤ t.length) :
    (t.take k ++ ellipsis).length = k + 3 ∧
      (t.take k ++ ellipsis).drop k = ellipsis := by
  have hlen : (t.take k).length = k := by rw [List.length_take]; omega
  refine ⟨?_, ?_⟩
  · rw [List.length_append, hlen]; rfl
  · have hd := List.drop_left (t.take k) ellipsis
    rwa [hlen] at hd

/-- The truncated text never exceeds `k + 3` characters. -/
theorem clip_length_le (t : List Char) (k : Nat) :
    (t.take k ++ ellipsis).length ≤ k + 3 := by
  rw [List.length_append, List.length_take]
  have h3 : ellipsis.length = 3 := rfl
  omega

/-- Text component of `TwitterAgent.optimize_content`. -/
theorem twitter_optimize_text (c : Content) :
    (TwitterAgent.optimize_content c).text =
      if (c.text.length : Int) > TwitterAgent.available_chars c then
        pyTake c.text (TwitterAgent.available_chars c - 3) ++ ellipsis
      else c.text := rfl

/-- Hashtag component of `TwitterAgent.optimize_content`. -/
theorem twitter_optimize_tags (c : Content) :
    (TwitterAgent.optimize_content c).hashtags = c.hashtags.take 5 := rfl

/-- Text component of `InstagramAgent.optimize_content`. -/
theorem instagram_optimize_text (c : Content) :
    (InstagramAgent.optimize_content c).text =
      if c.text.length > 300 then c.text.take 297 ++ ellipsis else c.text := rfl

/-- Hashtag component of `InstagramAgent.optimize_content`. -/
theorem instagram_optimize_tags (c : Content) :
    (InstagramAgent.optimize_content c).hashtags =
      if c.hashtags.length > 30 then c.hashtags.take 30
      else if c.hashtags.length < 10 then
        c.hashtags ++ InstagramAgent.generic_hashtags.take (10 - c.hashtags.length)
      else c.hashtags := rfl

/-- Text component of `FacebookAgent.optimize_content`. -/
theorem facebook_optimize_text (c : Content) :
    (FacebookAgent.optimize_content c).text =
      if c.text.length > 500 then c.text.take 497 ++ ellipsis else c.text := rfl

/-- Hashtag component of `FacebookAgent.optimize_content`. -/
theorem facebook_optimize_tags (c : Content) :
    (FacebookAgent.optimize_content c).hashtags =
      if c.hashtags.length > 5 then c.hashtags.take 5 else c.hashtags := rfl

/-- Text component of `TikTokAgent.optimize_content`. -/
theorem tiktok_optimize_text (c : Content) :
    (TikTokAgent.optimize_content c).text =
      if c.text.length > 2200 then c.text.take 2197 ++ ellipsis else c.text := rfl

/-- Hashtag component of `TikTokAgent.optimize_content`. -/
theorem tiktok_optimize_tags (c : Content) :
    (TikTokAgent.optimize_content c).hashtags =
      if c.hashtags.length > 10 then c.hashtags.take 10
      else if c.hashtags.length < 3 then
        c.hashtags ++ TikTokAgent.tiktok_hashtags.take (3 - c.hashtags.length)
      else c.hashtags := rfl

/-- C1 counterexample: a 281-character tweet with no hashtags exceeds the
280-character limit, yet `TwitterAgent.optimize_content` returns text of
length 278 (the hashtag-adjusted budget `280 - 0 - 2`), not 280. -/
theorem twitter_truncation_not_280 :
    280 < (Content.mk (List.replicate 281 'a') []).text.length ∧
    (TwitterAgent.optimize_content
        (Content.mk (List.replicate 281 'a') [])).text.length = 278 ∧
    (TwitterAgent.optimize_content
        (Content.mk (List.replicate 281 'a') [])).text.length ≠ 280 := by
  decide

/-- C1 (corrected): for Instagram, Facebook and TikTok, over-long text is cut
to exactly the platform's maximum (300/500/2200) and ends with the ellipsis;
for Twitter the bound is not 280 but the hashtag-adjusted budget
`280 - len(hashtag_text) - 2`, and text exceeding that budget (when the budget
is at least 3, i.e. the rendered first-five-hashtag text is at most 275
characters) is cut to exactly the budget, ending with the ellipsis. -/
theorem optimize_truncation_amended (ci cf ct cw : Content)
    (hi : 300 < ci.text.length)
    (hf : 500 < cf.text.length)
    (ht : 2200 < ct.text.length)
    (hw1 : (TwitterAgent.hashtag_text cw).length ≤ 275)
    (hw2 : 278 - (TwitterAgent.hashtag_text cw).length < cw.text.length) :
    ((InstagramAgent.optimize_content ci).text.length = 300 ∧
      (InstagramAgent.optimize_content ci).text.drop 297 = ellipsis) ∧
    ((FacebookAgent.optimize_content cf).text.length = 500 ∧
      (FacebookAgent.optimize_content cf).text.drop 497 = ellipsis) ∧
    ((TikTokAgent.optimize_content ct).text.length = 2200 ∧
      (TikTokAgent.optimize_content ct).text.drop 2197 = ellipsis) ∧
    ((TwitterAgent.optimize_content cw).text.length
        = 278 - (TwitterAgent.hashtag_text cw).length ∧
      (TwitterAgent.optimize_content cw).text.drop
          (275 - (TwitterAgent.hashtag_text cw).length) = ellipsis) := by
  refine ⟨?_, ?_, ?_, ?_⟩
  · rw [instagram_optimize_text, if_pos (by omega)]
    obtain ⟨h1, h2⟩ := clip_spec ci.text 297 (by omega)
    exact ⟨by omega, h2⟩
  · rw [facebook_optimize_text, if_pos (by omega)]
    obtain ⟨h1, h2⟩ := clip_spec cf.text 497 (by omega)
    exact ⟨by omega, h2⟩
  · rw [tiktok_optimize_text, if_pos (by omega)]
    obtain ⟨h1, h2⟩ := clip_spec ct.text 2197 (by omega)
    exact ⟨by omega, h2⟩
  · have hA : TwitterAgent.available_chars cw
        = 280 - ((TwitterAgent.hashtag_text cw).length : Int) - 2 := rfl
    have hcond : (cw.text.length : Int) > TwitterAgent.available_chars cw := by
      rw [hA]; omega
    have hnn : (0 : Int) ≤ TwitterAgent.available_chars cw - 3 := by
      rw [hA]; omega
    rw [twitter_optimize_text, if_pos hcond, pyTake_of_nonneg _ _ hnn]
    have htn : (TwitterAgent.available_chars cw - 3).toNat
        = 275 - (TwitterAgent.hashtag_text cw).length := by
      rw [hA]; omega
    rw [htn]
    obtain ⟨h1, h2⟩ := clip_spec cw.text
      (275 - (TwitterAgent.hashtag_text cw).length) (by omega)
    exact ⟨by omega, h2⟩

/-- C1 witness: the amended truncation theorem applied to concrete over-long
contents on all four platforms. -/
theorem optimize_truncation_amended_witness :
    (300 < (Content.mk (List.replicate 301 'a') []).text.length ∧
      500 < (Content.mk (List.replicate 501 'a') []).text.length ∧
      2200 < (Content.mk (List.replicate 2201 'a') []).text.length ∧
      (TwitterAgent.hashtag_text (Content.mk (List.replicate 279 'a') [])).length ≤ 275 ∧
      278 - (TwitterAgent.hashtag_text (Content.mk (List.replicate 279 'a') [])).length
        < (Content.mk (List.replicate 279 'a') []).text.length) ∧
    (((InstagramAgent.optimize_content (Content.mk (List.replicate 301 'a') [])).text.length = 300 ∧
      (InstagramAgent.optimize_content (Content.mk (List.replicate 301 'a') [])).text.drop 297 = ellipsis) ∧
    ((FacebookAgent.optimize_content (Content.mk (List.replicate 501 'a') [])).text.length = 500 ∧
      (FacebookAgent.optimize_content (Content.mk (List.replicate 501 'a') [])).text.drop 497 = ellipsis) ∧
    ((TikTokAgent.optimize_content (Content.mk (List.replicate 2201 'a') [])).text.length = 2200 ∧
      (TikTokAgent.optimize_content (Content.mk (List.replicate 2201 'a') [])).text.drop 2197 = ellipsis) ∧
    ((TwitterAgent.optimize_content (Content.mk (List.replicate 279 'a') [])).text.length
        = 278 - (TwitterAgent.hashtag_text (Content.mk (List.replicate 279 'a') [])).length ∧
      (TwitterAgent.optimize_content (Content.mk (List.replicate 279 'a') [])).text.drop
          (275 - (TwitterAgent.hashtag_text (Content.mk (List.replicate 279 'a') [])).length) = ellipsis)) :=
  ⟨⟨by decide, by decide, by decide, by decide, by decide⟩,
    optimize_truncation_amended _ _ _ _
      (by decide) (by decide) (by decide) (by decide) (by decide)⟩

/-- C2 counterexample: Instagram's fixed pool holds only 4 generic hashtags,
so content with no hashtags is optimized to 4 hashtags, below the platform's
minimum of 10; and a single 280-character hashtag makes Twitter's budget
`280 - 281 - 2 = -3` negative, so a 300-character text is "truncated" by a
negative Python slice to 297 characters, above the 280-character maximum. -/
theorem optimize_constraint_table_violated :
    ((InstagramAgent.optimize_content (Content.mk [] [])).hashtags.length = 4 ∧
      ¬ (10 ≤ (InstagramAgent.optimize_content (Content.mk [] [])).hashtags.length)) ∧
    ((TwitterAgent.optimize_content (Content.mk (List.replicate 300 'b')
        [String.mk (List.replicate 280 'a')])).text.length = 297 ∧
      ¬ ((TwitterAgent.optimize_content (Content.mk (List.replicate 300 'b')
        [String.mk (List.replicate 280 'a')])).text.length ≤ 280)) := by
  decide

/-- C2 (corrected): for every input, the hashtag upper bounds (Twitter 5,
Instagram 30, TikTok 10, Facebook 5) and the Instagram/TikTok/Facebook text
bounds (300/2200/500) hold, and TikTok always reaches its minimum of 3
hashtags; but Instagram reaches its minimum of 10 only when the input already
has at least 6 hashtags (its pool holds just 4), and Twitter's 280-character
text bound holds only when the rendered first-five-hashtag text is at most
275 characters. -/
theorem optimize_constraint_table_amended (ci ct cf cw cim cwt : Content)
    (hi6 : 6 ≤ cim.hashtags.length)
    (hw : (TwitterAgent.hashtag_text cwt).length ≤ 275) :
    ((InstagramAgent.optimize_content ci).text.length ≤ 300 ∧
      (InstagramAgent.optimize_content ci).hashtags.length ≤ 30) ∧
    10 ≤ (InstagramAgent.optimize_content cim).hashtags.length ∧
    ((TikTokAgent.optimize_content ct).text.length ≤ 2200 ∧
      (TikTokAgent.optimize_content ct).hashtags.length ≤ 10 ∧
      3 ≤ (TikTokAgent.optimize_content ct).hashtags.length) ∧
    ((FacebookAgent.optimize_content cf).text.length ≤ 500 ∧
      (FacebookAgent.optimize_content cf).hashtags.length ≤ 5) ∧
    (TwitterAgent.optimize_content cw).hashtags.length ≤ 5 ∧
    (TwitterAgent.optimize_content cwt).text.length ≤ 280 := by
  refine ⟨⟨?_, ?_⟩, ?_, ⟨?_, ?_, ?_⟩, ⟨?_, ?_⟩, ?_, ?_⟩
  · rw [instagram_optimize_text]
    by_cases h : ci.text.length > 300
    · rw [if_pos h]
      have := clip_length_le ci.text 297
      omega
    · rw [if_neg h]; omega
  · have hpool : InstagramAgent.generic_hashtags.length = 4 := rfl
    rw [instagram_optimize_tags]
    by_cases h30 : ci.hashtags.length > 30
    · rw [if_pos h30, List.length_take]
      omega
    · rw [if_neg h30]
      by_cases h10 : ci.hashtags.length < 10
      · rw [if_pos h10, List.length_append, List.length_take, hpool]
        omega
      · rw [if_neg h10]
        omega
  · have hpool : InstagramAgent.generic_hashtags.length = 4 := rfl
    rw [instagram_optimize_tags]
    by_cases h30 : cim.hashtags.length > 30
    · rw [if_pos h30, List.length_take]
      omega
    · rw [if_neg h30]
      by_cases h10 : cim.hashtags.length < 10
      · rw [if_pos h10, List.length_append, List.length_take, hpool]
        omega
      · rw [if_neg h10]
        omega
  · rw [tiktok_optimize_text]
    by_cases h : ct.text.length > 2200
    · rw [if_pos h]
      have := clip_length_le ct.text 2197
      omega
    · rw [if_neg h]; omega
  · have hpool : TikTokAgent.tiktok_hashtags.length = 5 := rfl
    rw [tiktok_optimize_tags]
    by_cases h10 : ct.hashtags.length > 10
    · rw [if_pos h10, List.length_take]
      omega
    · rw [if_neg h10]
      by_cases h3 : ct.hashtags.length < 3
      · rw [if_pos h3, List.length_append, List.length_take, hpool]
        omega
      · rw [if_neg h3]
        omega
  · have hpool : TikTokAgent.tiktok_hashtags.length = 5 := rfl
    rw [tiktok_optimize_tags]
    by_cases h10 : ct.hashtags.length > 10
    · rw [if_pos h10, List.length_take]
      omega
    · rw [if_neg h10]
      by_cases h3 : ct.hashtags.length < 3
      · rw [if_pos h3, List.length_append, List.length_take, hpool]
        omega
      · rw [if_neg h3]
        omega
  · rw [facebook_optimize_text]
    by_cases h : cf.text.length > 500
    · rw [if_pos h]
      have := clip_length_le cf.text 497
      omega
    · rw [if_neg h]; omega
  · rw [facebook_optimize_tags]
    by_cases h : cf.hashtags.length > 5
    · rw [if_pos h, List.length_take]; omega
    · rw [if_neg h]; omega
  · rw [twitter_optimize_tags, List.length_take]
    omega
  · have hA : TwitterAgent.available_chars cwt
        = 280 - ((TwitterAgent.hashtag_text cwt).length : Int) - 2 := rfl
    rw [twitter_optimize_text]
    by_cases hcond : (cwt.text.length : Int) > TwitterAgent.available_chars cwt
    · have hnn : (0 : Int) ≤ TwitterAgent.available_chars cwt - 3 := by
        rw [hA]; omega
      rw [if_pos hcond, pyTake_of_nonneg _ _ hnn]
      have htn : (TwitterAgent.available_chars cwt - 3).toNat
          = 275 - (TwitterAgent.hashtag_text cwt).length := by
        rw [hA]; omega
      rw [htn]
      have := clip_length_le cwt.text (275 - (TwitterAgent.hashtag_text cwt).length)
      omega
    · rw [if_neg hcond]
      rw [hA] at hcond
      omega

/-- C2 witness: the amended constraint-table theorem at concrete contents
(an Instagram input with 6 hashtags for the minimum, a Twitter input with no
hashtags for the text bound, and hashtag-free inputs for the unconditional
bounds). -/
theorem optimize_constraint_table_amended_witness :
    (6 ≤ (Content.mk [] ["a", "b", "c", "d", "e", "f"]).hashtags.length ∧
      (TwitterAgent.hashtag_text (Content.mk ['x'] [])).length ≤ 275) ∧
    (((InstagramAgent.optimize_content (Content.mk ['y'] ["z"])).text.length ≤ 300 ∧
      (InstagramAgent.optimize_content (Content.mk ['y'] ["z"])).hashtags.length ≤ 30) ∧
    10 ≤ (InstagramAgent.optimize_content
        (Content.mk [] ["a", "b", "c", "d", "e", "f"])).hashtags.length ∧
    ((TikTokAgent.optimize_content (Content.mk [] [])).text.length ≤ 2200 ∧
      (TikTokAgent.optimize_content (Content.mk [] [])).hashtags.length ≤ 10 ∧
      3 ≤ (TikTokAgent.optimize_content (Content.mk [] [])).hashtags.length) ∧
    ((FacebookAgent.optimize_content (Content.mk [] [])).text.length ≤ 500 ∧
      (FacebookAgent.optimize_content (Content.mk [] [])).hashtags.length ≤ 5) ∧
    (TwitterAgent.optimize_content (Content.mk [] ["w"])).hashtags.length ≤ 5 ∧
    (TwitterAgent.optimize_content (Content.mk ['x'] [])).text.length ≤ 280) :=
  ⟨⟨by decide, by decide⟩,
    optimize_constraint_table_amended _ _ _ _ _ _ (by decide) (by decide)⟩

/-- C3 counterexample: with a connected Graph API whose response lacks the
`"id"` entry, `FacebookAgent.publish_content` returns the success shape with
an absent post id — the missing-post-identifier path does not yield the
Failure variant. -/
theorem facebook_missing_post_id_success :
    FacebookAgent.publish_content true (CallOutcome.returns none) "client-1"
      = PublishResult.success "facebook" none "client-1" none ∧
    (FacebookAgent.publish_content true (CallOutcome.returns none)
        "client-1").isSuccess = true := by
  decide

/-- C3 (corrected): publish never propagates an exception, and both result
shapes always carry the platform name and the client id.  All three listed
failure paths yield the Failure shape for Twitter; for Facebook only the
no-connection and raising paths do — a response lacking the post identifier
yields a Success whose post id is absent. -/
theorem publish_failure_paths_amended (conn : Bool) (outcome : CallOutcome)
    (msg : String) (c : Content) (cid : String) :
    ((TwitterAgent.publish_content conn outcome c cid).platform = "twitter" ∧
      (TwitterAgent.publish_content conn outcome c cid).clientId = cid) ∧
    ((FacebookAgent.publish_content conn outcome cid).platform = "facebook" ∧
      (FacebookAgent.publish_content conn outcome cid).clientId = cid) ∧
    (TwitterAgent.publish_content false outcome c cid).isSuccess = false ∧
    (TwitterAgent.publish_content true (CallOutcome.raises msg) c cid).isSuccess = false ∧
    (TwitterAgent.publish_content true (CallOutcome.returns none) c cid).isSuccess = false ∧
    (FacebookAgent.publish_content false outcome cid).isSuccess = false ∧
    (FacebookAgent.publish_content true (CallOutcome.raises msg) cid).isSuccess = false ∧
    FacebookAgent.publish_content true (CallOutcome.returns none) cid
      = PublishResult.success "facebook" none cid none := by
  cases conn <;> rcases outcome with msg2 | (_ | pid2) <;>
    simp [TwitterAgent.publish_content, FacebookAgent.publish_content,
      PublishResult.platform, PublishResult.clientId, PublishResult.isSuccess]

/-- C4 counterexample: `execute_campaign` with an empty target-platform list
does not fail with a configuration error — the workflow runs to completion
with status `"completed"` and no recorded error message. -/
theorem execute_empty_platforms_completes :
    (ExecutiveAgent.execute_campaign "client-1" "awareness" "brief" [] none
        0 1 2 3).status = "completed" ∧
    (ExecutiveAgent.execute_campaign "client-1" "awareness" "brief" [] none
        0 1 2 3).errorMessages = [] := by
  decide

/-- C4 (corrected): `execute_campaign` performs no validation of the
target-platform list at all.  For every list — empty or containing ids with
no registered adapter — the workflow runs to completion with status
`"completed"` and an empty error list (its three nodes only stamp status
fields and make no external call). -/
theorem execute_no_validation_amended (cid ob br : String)
    (ps : List String) (cmp : Option String) (t0 t1 t2 t3 : Nat) :
    (ExecutiveAgent.execute_campaign cid ob br ps cmp t0 t1 t2 t3).status
        = "completed" ∧
    (ExecutiveAgent.execute_campaign cid ob br ps cmp t0 t1 t2 t3).errorMessages
        = [] := by
  exact ⟨rfl, rfl⟩

/-- C8 counterexample: `search_similar_content` on an uninitialized store does
not surface a "not initialized" error — the exception is caught internally and
an ordinary empty result is returned. -/
theorem search_uninit_returns_ok :
    VectorStoreManager.search_similar_content ⟨false, false⟩
        (Except.error VectorStoreManager.notInitializedMsg)
      = Except.ok ([] : List String) ∧
    VectorStoreManager.get_content_by_id ⟨false, false⟩
        (Except.error VectorStoreManager.notInitializedMsg)
      = Except.ok (none : Option String) ∧
    VectorStoreManager.delete_content ⟨false, false⟩
        (Except.error VectorStoreManager.notInitializedMsg)
      = Except.ok false := by
  exact ⟨rfl, rfl, rfl⟩

/-- C8 (corrected): before initialization only `store_content` surfaces the
"not initialized" error to its caller; `search_similar_content`,
`get_content_by_id` and `delete_content` catch it and return the ordinary
fallback results `[]`, `None` and `False` instead. -/
theorem vector_store_uninit_amended (st : VectorStoreManager.StoreState)
    (h : st.collectionSet = false)
    (e1 : Except String String) (e2 : Except String (List String))
    (e3 : Except String (Option String)) (e4 : Except String Unit) :
    VectorStoreManager.store_content st e1
        = Except.error VectorStoreManager.notInitializedMsg ∧
    VectorStoreManager.search_similar_content st e2 = Except.ok [] ∧
    VectorStoreManager.get_content_by_id st e3 = Except.ok none ∧
    VectorStoreManager.delete_content st e4 = Except.ok false := by
  refine ⟨?_, ?_, ?_, ?_⟩ <;>
    simp [VectorStoreManager.store_content,
      VectorStoreManager.search_similar_content,
      VectorStoreManager.get_content_by_id,
      VectorStoreManager.delete_content, h]

/-- C8 witness: the amended theorem at the fresh (never-initialized) store
state with concrete external outcomes. -/
theorem vector_store_uninit_amended_witness :
    (VectorStoreManager.StoreState.mk false false).collectionSet = false ∧
    (VectorStoreManager.store_content ⟨false, false⟩ (Except.ok "id-1")
        = Except.error VectorStoreManager.notInitializedMsg ∧
      VectorStoreManager.search_similar_content ⟨false, false⟩ (Except.ok ["r"])
        = Except.ok [] ∧
      VectorStoreManager.get_content_by_id ⟨false, false⟩ (Except.ok (some "r"))
        = Except.ok none ∧
      VectorStoreManager.delete_content ⟨false, false⟩ (Except.ok ())
        = Except.ok false) :=
  ⟨rfl, vector_store_uninit_amended ⟨false, false⟩ rfl _ _ _ _⟩

/-- C9 counterexample: the first transition out of `"started"` lands on
`"brief_analyzed"`, a status that is none of Started, ContentGenerated or
Completed — the claimed three-state sequence skips a state the code visits. -/
theorem status_goes_through_brief_analyzed :
    (ExecutiveAgent.analyze_brief 1
        (ExecutiveAgent.initialState "client-1" "awareness" "brief"
          ["twitter"] none 0)).status = "brief_analyzed" ∧
    ("brief_analyzed" ≠ "started" ∧ "brief_analyzed" ≠ "content_generated" ∧
      "brief_analyzed" ≠ "completed") := by
  decide

/-- C9 (corrected): within one workflow execution the campaign status moves
strictly forward through the four-state sequence started → brief_analyzed →
content_generated → completed (one more state than the claim lists), never
regressing, and every transition stamps `updated_at` with the current clock. -/
theorem campaign_status_monotone_amended (cid ob br : String)
    (ps : List String) (cmp : Option String) (t0 t1 t2 t3 : Nat)
    (h01 : t0 < t1) (h12 : t1 < t2) (h23 : t2 < t3) :
    (ExecutiveAgent.initialState cid ob br ps cmp t0).status = "started" ∧
    (ExecutiveAgent.analyze_brief t1
        (ExecutiveAgent.initialState cid ob br ps cmp t0)).status
      = "brief_analyzed" ∧
    (ExecutiveAgent.generate_content t2 (ExecutiveAgent.analyze_brief t1
        (ExecutiveAgent.initialState cid ob br ps cmp t0))).status
      = "content_generated" ∧
    (ExecutiveAgent.finalize t3 (ExecutiveAgent.generate_content t2
        (ExecutiveAgent.analyze_brief t1
          (ExecutiveAgent.initialState cid ob br ps cmp t0)))).status
      = "completed" ∧
    (ExecutiveAgent.initialState cid ob br ps cmp t0).updatedAt
      < (ExecutiveAgent.analyze_brief t1
          (ExecutiveAgent.initialState cid ob br ps cmp t0)).updatedAt ∧
    (ExecutiveAgent.analyze_brief t1
        (ExecutiveAgent.initialState cid ob br ps cmp t0)).updatedAt
      < (ExecutiveAgent.generate_content t2 (ExecutiveAgent.analyze_brief t1
          (ExecutiveAgent.initialState cid ob br ps cmp t0))).updatedAt ∧
    (ExecutiveAgent.generate_content t2 (ExecutiveAgent.analyze_brief t1
        (ExecutiveAgent.initialState cid ob br ps cmp t0))).updatedAt
      < (ExecutiveAgent.finalize t3 (ExecutiveAgent.generate_content t2
          (ExecutiveAgent.analyze_brief t1
            (ExecutiveAgent.initialState cid ob br ps cmp t0)))).updatedAt := by
  exact ⟨rfl, rfl, rfl, rfl, h01, h12, h23⟩

/-- C9 witness: the amended status-machine theorem at a concrete campaign and
strictly increasing clock values. -/
theorem campaign_status_monotone_amended_witness :
    ((0 : Nat) < 1 ∧ (1 : Nat) < 2 ∧ (2 : Nat) < 3) ∧
    ((ExecutiveAgent.initialState "client-1" "awareness" "brief" ["twitter"]
        none 0).status = "started" ∧
      (ExecutiveAgent.analyze_brief 1
          (ExecutiveAgent.initialState "client-1" "awareness" "brief"
            ["twitter"] none 0)).status = "brief_analyzed" ∧
      (ExecutiveAgent.generate_content 2 (ExecutiveAgent.analyze_brief 1
          (ExecutiveAgent.initialState "client-1" "awareness" "brief"
            ["twitter"] none 0))).status = "content_generated" ∧
      (ExecutiveAgent.finalize 3 (ExecutiveAgent.generate_content 2
          (ExecutiveAgent.analyze_brief 1
            (ExecutiveAgent.initialState "client-1" "awareness" "brief"
              ["twitter"] none 0)))).status = "completed" ∧
      (ExecutiveAgent.initialState "client-1" "awareness" "brief" ["twitter"]
          none 0).updatedAt
        < (ExecutiveAgent.analyze_brief 1
            (ExecutiveAgent.initialState "client-1" "awareness" "brief"
              ["twitter"] none 0)).updatedAt ∧
      (ExecutiveAgent.analyze_brief 1
          (ExecutiveAgent.initialState "client-1" "awareness" "brief"
            ["twitter"] none 0)).updatedAt
        < (ExecutiveAgent.generate_content 2 (ExecutiveAgent.analyze_brief 1
            (ExecutiveAgent.initialState "client-1" "awareness" "brief"
              ["twitter"] none 0))).updatedAt ∧
      (ExecutiveAgent.generate_content 2 (ExecutiveAgent.analyze_brief 1
          (ExecutiveAgent.initialState "client-1" "awareness" "brief"
            ["twitter"] none 0))).updatedAt
        < (ExecutiveAgent.finalize 3 (ExecutiveAgent.generate_content 2
            (ExecutiveAgent.analyze_brief 1
              (ExecutiveAgent.initialState "client-1" "awareness" "brief"
                ["twitter"] none 0)))).updatedAt) :=
  ⟨⟨by decide, by decide, by decide⟩,
    campaign_status_monotone_amended "client-1" "awareness" "brief" ["twitter"]
      none 0 1 2 3 (by decide) (by decide) (by decide)⟩

/-- Instagram's padding branch appends the first `10 - len` pool entries
unconditionally. -/
theorem instagram_pad (c : Content) (h : c.hashtags.length < 10) :
    (InstagramAgent.optimize_content c).hashtags
      = c.hashtags ++ InstagramAgent.generic_hashtags.take (10 - c.hashtags.length) := by
  rw [instagram_optimize_tags, if_neg (by omega), if_pos h]

/-- TikTok's padding branch appends the first `3 - len` pool entries
unconditionally. -/
theorem tiktok_pad (c : Content) (h : c.hashtags.length < 3) :
    (TikTokAgent.optimize_content c).hashtags
      = c.hashtags ++ TikTokAgent.tiktok_hashtags.take (3 - c.hashtags.length) := by
  rw [tiktok_optimize_tags, if_neg (by omega), if_pos h]

/-- Facebook's optimize is the identity on content already within its
constraints. -/
theorem facebook_optimize_fixed (c : Content) (h1 : c.text.length ≤ 500)
    (h2 : c.hashtags.length ≤ 5) : FacebookAgent.optimize_content c = c := by
  apply content_ext
  · rw [facebook_optimize_text, if_neg (by omega)]
  · rw [facebook_optimize_tags, if_neg (by omega)]

/-- Instagram's optimize is the identity on content already within its
constraints. -/
theorem instagram_optimize_fixed (c : Content) (h1 : c.text.length ≤ 300)
    (h2 : 10 ≤ c.hashtags.length) (h3 : c.hashtags.length ≤ 30) :
    InstagramAgent.optimize_content c = c := by
  apply content_ext
  · rw [instagram_optimize_text, if_neg (by omega)]
  · rw [instagram_optimize_tags, if_neg (by omega), if_neg (by omega)]

/-- TikTok's optimize is the identity on content already within its
constraints. -/
theorem tiktok_optimize_fixed (c : Content) (h1 : c.text.length ≤ 2200)
    (h2 : 3 ≤ c.hashtags.length) (h3 : c.hashtags.length ≤ 10) :
    TikTokAgent.optimize_content c = c := by
  apply content_ext
  · rw [tiktok_optimize_text, if_neg (by omega)]
  · rw [tiktok_optimize_tags, if_neg (by omega), if_neg (by omega)]

/-- Optimizing does not change the rendered first-five-hashtag text. -/
theorem twitter_hashtag_text_optimize (c : Content) :
    TwitterAgent.hashtag_text (TwitterAgent.optimize_content c)
      = TwitterAgent.hashtag_text c := by
  unfold TwitterAgent.hashtag_text
  rw [twitter_optimize_tags, List.take_take, Nat.min_self]

/-- Optimizing does not change the hashtag-adjusted character budget. -/
theorem twitter_available_optimize (c : Content) :
    TwitterAgent.available_chars (TwitterAgent.optimize_content c)
      = TwitterAgent.available_chars c := by
  unfold TwitterAgent.available_chars
  rw [twitter_hashtag_text_optimize]

/-- Twitter's optimize is idempotent whenever the rendered first-five-hashtag
text fits the budget (at most 275 characters). -/
theorem twitter_optimize_idem (c : Content)
    (h3 : (TwitterAgent.hashtag_text c).length ≤ 275) :
    TwitterAgent.optimize_content (TwitterAgent.optimize_content c)
      = TwitterAgent.optimize_content c := by
  have hA : TwitterAgent.available_chars c
      = 280 - ((TwitterAgent.hashtag_text c).length : Int) - 2 := rfl
  have hno : ¬ (((TwitterAgent.optimize_content c).text.length : Int)
      > TwitterAgent.available_chars (TwitterAgent.optimize_content c)) := by
    rw [twitter_available_optimize]
    by_cases hcond : (c.text.length : Int) > TwitterAgent.available_chars c
    · have hnn : (0 : Int) ≤ TwitterAgent.available_chars c - 3 := by
        rw [hA]; omega
      rw [twitter_optimize_text, if_pos hcond, pyTake_of_nonneg _ _ hnn,
        List.length_append, List.length_take]
      have he : ellipsis.length = 3 := rfl
      rw [hA] at hcond ⊢
      omega
    · rw [twitter_optimize_text, if_neg hcond]
      exact hcond
  apply content_ext
  · rw [twitter_optimize_text (TwitterAgent.optimize_content c), if_neg hno]
  · rw [twitter_optimize_tags, twitter_optimize_tags, List.take_take,
      Nat.min_self]

/-- C5 counterexample: content whose single hashtag renders to 281 characters
satisfies the stated constraints (text of length 10 at most 280 characters,
one hashtag at most 5), yet the budget `280 - 281 - 2` is negative and
optimizing twice keeps shrinking the text — optimize is not idempotent on
content that already satisfies the constraint table. -/
theorem twitter_optimize_not_idempotent :
    ((Content.mk (List.replicate 10 'b')
        [String.mk (List.replicate 280 'a')]).text.length ≤ 280 ∧
      (Content.mk (List.replicate 10 'b')
        [String.mk (List.replicate 280 'a')]).hashtags.length ≤ 5) ∧
    TwitterAgent.optimize_content (TwitterAgent.optimize_content
        (Content.mk (List.replicate 10 'b')
          [String.mk (List.replicate 280 'a')]))
      ≠ TwitterAgent.optimize_content
          (Content.mk (List.replicate 10 'b')
            [String.mk (List.replicate 280 'a')]) := by
  decide

/-- C5 (corrected): for Facebook, Instagram and TikTok, optimize is idempotent
on content already satisfying the platform's constraints (it is the identity
there); for Twitter idempotence additionally requires the rendered
first-five-hashtag text to be at most 275 characters, so that the truncation
budget is nonnegative. -/
theorem optimize_idempotent_amended (cf ci ct cw : Content)
    (hf1 : cf.text.length ≤ 500) (hf2 : cf.hashtags.length ≤ 5)
    (hi1 : ci.text.length ≤ 300) (hi2 : 10 ≤ ci.hashtags.length)
    (hi3 : ci.hashtags.length ≤ 30)
    (ht1 : ct.text.length ≤ 2200) (ht2 : 3 ≤ ct.hashtags.length)
    (ht3 : ct.hashtags.length ≤ 10)
    (hw1 : cw.text.length ≤ 280) (hw2 : cw.hashtags.length ≤ 5)
    (hw3 : (TwitterAgent.hashtag_text cw).length ≤ 275) :
    FacebookAgent.optimize_content (FacebookAgent.optimize_content cf)
      = FacebookAgent.optimize_content cf ∧
    InstagramAgent.optimize_content (InstagramAgent.optimize_content ci)
      = InstagramAgent.optimize_content ci ∧
    TikTokAgent.optimize_content (TikTokAgent.optimize_content ct)
      = TikTokAgent.optimize_content ct ∧
    TwitterAgent.optimize_content (TwitterAgent.optimize_content cw)
      = TwitterAgent.optimize_content cw := by
  refine ⟨?_, ?_, ?_, ?_⟩
  · simp only [facebook_optimize_fixed cf hf1 hf2]
  · simp only [instagram_optimize_fixed ci hi1 hi2 hi3]
  · simp only [tiktok_optimize_fixed ct ht1 ht2 ht3]
  · exact twitter_optimize_idem cw hw3

/-- C5 witness: the amended idempotence theorem at concrete in-constraint
contents for all four platforms. -/
theorem optimize_idempotent_amended_witness :
    ((Content.mk ['x'] []).text.length ≤ 500 ∧
      (Content.mk ['x'] []).hashtags.length ≤ 5 ∧
      (Content.mk ['x'] ["a", "b", "c", "d", "e", "f", "g", "h", "i", "j"]).text.length ≤ 300 ∧
      10 ≤ (Content.mk ['x'] ["a", "b", "c", "d", "e", "f", "g", "h", "i", "j"]).hashtags.length ∧
      (Content.mk ['x'] ["a", "b", "c", "d", "e", "f", "g", "h", "i", "j"]).hashtags.length ≤ 30 ∧
      (Content.mk ['x'] ["a", "b", "c"]).text.length ≤ 2200 ∧
      3 ≤ (Content.mk ['x'] ["a", "b", "c"]).hashtags.length ∧
      (Content.mk ['x'] ["a", "b", "c"]).hashtags.length ≤ 10 ∧
      (Content.mk ['x'] ["a"]).text.length ≤ 280 ∧
      (Content.mk ['x'] ["a"]).hashtags.length ≤ 5 ∧
      (TwitterAgent.hashtag_text (Content.mk ['x'] ["a"])).length ≤ 275) ∧
    (FacebookAgent.optimize_content (FacebookAgent.optimize_content
        (Content.mk ['x'] []))
      = FacebookAgent.optimize_content (Content.mk ['x'] []) ∧
    InstagramAgent.optimize_content (InstagramAgent.optimize_content
        (Content.mk ['x'] ["a", "b", "c", "d", "e", "f", "g", "h", "i", "j"]))
      = InstagramAgent.optimize_content
          (Content.mk ['x'] ["a", "b", "c", "d", "e", "f", "g", "h", "i", "j"]) ∧
    TikTokAgent.optimize_content (TikTokAgent.optimize_content
        (Content.mk ['x'] ["a", "b", "c"]))
      = TikTokAgent.optimize_content (Content.mk ['x'] ["a", "b", "c"]) ∧
    TwitterAgent.optimize_content (TwitterAgent.optimize_content
        (Content.mk ['x'] ["a"]))
      = TwitterAgent.optimize_content (Content.mk ['x'] ["a"])) :=
  ⟨⟨by decide, by decide, by decide, by decide, by decide, by decide,
      by decide, by decide, by decide, by decide, by decide⟩,
    optimize_idempotent_amended _ _ _ _ (by decide) (by decide) (by decide)
      (by decide) (by decide) (by decide) (by decide) (by decide) (by decide)
      (by decide) (by decide)⟩

/-- C6 (confirmed): when the input has fewer hashtags than the platform
minimum and the default pool is large enough to fill the gap, optimize
returns exactly the minimum number of hashtags with the original ones first,
in original order (Instagram minimum 10, TikTok minimum 3; Twitter and
Facebook have no minimum, making the claim vacuous for them). -/
theorem optimize_min_hashtags_pad (ci ct : Content)
    (hi1 : ci.hashtags.length < 10)
    (hi2 : 10 - ci.hashtags.length ≤ InstagramAgent.generic_hashtags.length)
    (ht1 : ct.hashtags.length < 3)
    (ht2 : 3 - ct.hashtags.length ≤ TikTokAgent.tiktok_hashtags.length) :
    ((InstagramAgent.optimize_content ci).hashtags.length = 10 ∧
      (InstagramAgent.optimize_content ci).hashtags.take ci.hashtags.length
        = ci.hashtags) ∧
    ((TikTokAgent.optimize_content ct).hashtags.length = 3 ∧
      (TikTokAgent.optimize_content ct).hashtags.take ct.hashtags.length
        = ct.hashtags) := by
  have hpool : InstagramAgent.generic_hashtags.length = 4 := rfl
  have hpool2 : TikTokAgent.tiktok_hashtags.length = 5 := rfl
  rw [hpool] at hi2
  rw [hpool2] at ht2
  refine ⟨⟨?_, ?_⟩, ⟨?_, ?_⟩⟩
  · rw [instagram_pad ci hi1, List.length_append, List.length_take, hpool]
    omega
  · rw [instagram_pad ci hi1]
    exact List.take_left _ _
  · rw [tiktok_pad ct ht1, List.length_append, List.length_take, hpool2]
    omega
  · rw [tiktok_pad ct ht1]
    exact List.take_left _ _

/-- C6 witness: the padding theorem at an Instagram input with 6 hashtags and
a TikTok input with none. -/
theorem optimize_min_hashtags_pad_witness :
    ((Content.mk [] ["a", "b", "c", "d", "e", "f"]).hashtags.length < 10 ∧
      10 - (Content.mk [] ["a", "b", "c", "d", "e", "f"]).hashtags.length
        ≤ InstagramAgent.generic_hashtags.length ∧
      (Content.mk [] ([] : List String)).hashtags.length < 3 ∧
      3 - (Content.mk [] ([] : List String)).hashtags.length
        ≤ TikTokAgent.tiktok_hashtags.length) ∧
    (((InstagramAgent.optimize_content
          (Content.mk [] ["a", "b", "c", "d", "e", "f"])).hashtags.length = 10 ∧
      (InstagramAgent.optimize_content
          (Content.mk [] ["a", "b", "c", "d", "e", "f"])).hashtags.take
          (Content.mk [] ["a", "b", "c", "d", "e", "f"]).hashtags.length
        = (Content.mk [] ["a", "b", "c", "d", "e", "f"]).hashtags) ∧
    ((TikTokAgent.optimize_content (Content.mk [] ([] : List String))).hashtags.length = 3 ∧
      (TikTokAgent.optimize_content (Content.mk [] ([] : List String))).hashtags.take
          (Content.mk [] ([] : List String)).hashtags.length
        = (Content.mk [] ([] : List String)).hashtags)) :=
  ⟨⟨by decide, by decide, by decide, by decide⟩,
    optimize_min_hashtags_pad _ _ (by decide) (by decide) (by decide)
      (by decide)⟩

/-- C7 counterexample: an input already containing the pool tag
`"#marketing"` is padded with the pool from its start, so the output contains
`"#marketing"` twice. -/
theorem instagram_duplicate_pool_tag :
    (InstagramAgent.optimize_content (Content.mk [] ["#marketing"])).hashtags
      = ["#marketing", "#marketing", "#business", "#socialmedia", "#content"] ∧
    "#marketing" ∈ InstagramAgent.generic_hashtags ∧
    (InstagramAgent.optimize_content
        (Content.mk [] ["#marketing"])).hashtags.count "#marketing" = 2 := by
  decide

/-- C7 (corrected): the padding branch performs no duplicate check — it
appends exactly the first `min - len` pool entries in fixed order regardless
of the input, so a pool tag already present in the input appears again. -/
theorem optimize_pool_append_amended (ci ct : Content)
    (hi : ci.hashtags.length < 10) (ht : ct.hashtags.length < 3) :
    (InstagramAgent.optimize_content ci).hashtags
      = ci.hashtags
          ++ InstagramAgent.generic_hashtags.take (10 - ci.hashtags.length) ∧
    (TikTokAgent.optimize_content ct).hashtags
      = ct.hashtags
          ++ TikTokAgent.tiktok_hashtags.take (3 - ct.hashtags.length) :=
  ⟨instagram_pad ci hi, tiktok_pad ct ht⟩

/-- C7 witness: the pool-append theorem at concrete under-minimum inputs. -/
theorem optimize_pool_append_amended_witness :
    ((Content.mk [] ["x"]).hashtags.length < 10 ∧
      (Content.mk [] ["y"]).hashtags.length < 3) ∧
    ((InstagramAgent.optimize_content (Content.mk [] ["x"])).hashtags
      = (Content.mk [] ["x"]).hashtags
          ++ InstagramAgent.generic_hashtags.take
              (10 - (Content.mk [] ["x"]).hashtags.length) ∧
    (TikTokAgent.optimize_content (Content.mk [] ["y"])).hashtags
      = (Content.mk [] ["y"]).hashtags
          ++ TikTokAgent.tiktok_hashtags.take
              (3 - (Content.mk [] ["y"]).hashtags.length)) :=
  ⟨⟨by decide, by decide⟩,
    optimize_pool_append_amended _ _ (by decide) (by decide)⟩

/-- C10 (confirmed): with an access token configured, Instagram's publish —
and TikTok's unconditionally — always returns the success shape whose post id
is synthesized locally from a hash of the composed caption/description text;
no input produces the failure variant (the bodies perform only string
operations, which cannot raise). -/
theorem simulated_publish_always_success (h : List Char → Int) (c : Content)
    (cid : String) :
    (InstagramAgent.publish_content true h c cid).isSuccess = true ∧
    (InstagramAgent.publish_content true h c cid).platform = "instagram" ∧
    (InstagramAgent.publish_content true h c cid).clientId = cid ∧
    (InstagramAgent.publish_content true h c cid).postId
      = some ("ig_" ++ cid ++ "_"
          ++ toString (h (InstagramAgent.caption c) % 10000)) ∧
    (TikTokAgent.publish_content h c cid).isSuccess = true ∧
    (TikTokAgent.publish_content h c cid).platform = "tiktok" ∧
    (TikTokAgent.publish_content h c cid).clientId = cid ∧
    (TikTokAgent.publish_content h c cid).postId
      = some ("tiktok_" ++ cid ++ "_"
          ++ toString (h (TikTokAgent.description c) % 10000)) := by
  refine ⟨rfl, rfl, rfl, rfl, rfl, rfl, rfl, rfl⟩
